import Mathlib

/-!
# Verification of the datalab-client cross-match core

A shallow embedding of the `dl.xmatch` package (files `table.py`,
`search_types.py`, `http.py`, `job.py`, `exceptions.py`) together with
theorems settling the specification claims about it.

Modelling conventions:
* Python strings are `String`; Python `in` on strings is list-infix on the
  character data.
* Python floats (only used for the search radius) are modelled as `ℚ`;
  rendering a number into an f-string is modelled by `pyFloatStr`.
* Python `None` interpolated into an f-string renders as the text `None`
  (`optStr`).
* Code that can raise is modelled in `Except PyErr`; `PyErr` distinguishes
  an `IndexError` (out-of-range indexing such as `tables[-1]` on an empty
  list or `table_name[0]` on an empty string), an `AttributeError`
  (attribute lookup failure) and the package's own `XMatchException`
  carrying its message.
* f-strings are translated as `String.join` of their literal and
  interpolated parts, in source order.
-/

namespace DataLab

/-- Python-level error outcomes relevant to the xmatch core:
`indexError` for out-of-range indexing, `attributeError` for a missing
attribute/method, and `xmatch msg` for `XMatchException(msg)`
(`exceptions.py`, the package's only domain error class). -/
inductive PyErr where
  | indexError : PyErr
  | attributeError : PyErr
  | xmatch : String → PyErr
deriving DecidableEq, Repr

/-- `Substr s pat` : `pat` occurs as a contiguous substring of `s`
(Python's `pat in s`). -/
def Substr (s pat : String) : Prop := pat.data <:+: s.data

instance (s pat : String) : Decidable (Substr s pat) :=
  inferInstanceAs (Decidable (_ <:+: _))

/-- Boolean form of `Substr`, used where the source code branches on
Python's `in` operator. -/
def strContains (pat s : String) : Bool := decide (Substr s pat)

theorem substr_refl (s : String) : Substr s s := List.infix_refl _

theorem substr_appL {a : String} (b : String) {pat : String}
    (h : Substr a pat) : Substr (a ++ b) pat := by
  unfold Substr at *
  rw [String.data_append]
  exact h.trans (List.prefix_append a.data b.data).isInfix

theorem substr_appR (a : String) {b pat : String}
    (h : Substr b pat) : Substr (a ++ b) pat := by
  unfold Substr at *
  rw [String.data_append]
  exact h.trans (List.suffix_append a.data b.data).isInfix

theorem substr_foldl {pat : String} :
    ∀ (l : List String) (acc : String),
      (Substr acc pat ∨ ∃ c ∈ l, Substr c pat) →
      Substr (l.foldl (fun r s => r ++ s) acc) pat := by
  intro l
  induction l with
  | nil =>
      intro acc h
      rcases h with h | ⟨c, hc, _⟩
      · exact h
      · exact absurd hc (List.not_mem_nil c)
  | cons x xs ih =>
      intro acc h
      rcases h with h | ⟨c, hc, hcp⟩
      · exact ih (acc ++ x) (Or.inl (substr_appL x h))
      · rcases List.mem_cons.mp hc with rfl | hmem
        · exact ih (acc ++ c) (Or.inl (substr_appR acc hcp))
        · exact ih (acc ++ x) (Or.inr ⟨c, hmem, hcp⟩)

theorem substr_join {l : List String} {c pat : String}
    (hmem : c ∈ l) (h : Substr c pat) : Substr (String.join l) pat :=
  substr_foldl l "" (Or.inr ⟨c, hmem, h⟩)

theorem substr_intercalate_go {sep pat : String} :
    ∀ (l : List String) (acc : String),
      (Substr acc pat ∨ ∃ c ∈ l, Substr c pat) →
      Substr (String.intercalate.go acc sep l) pat := by
  intro l
  induction l with
  | nil =>
      intro acc h
      rcases h with h | ⟨c, hc, _⟩
      · simpa [String.intercalate.go] using h
      · exact absurd hc (List.not_mem_nil c)
  | cons x xs ih =>
      intro acc h
      rw [String.intercalate.go]
      rcases h with h | ⟨c, hc, hcp⟩
      · exact ih (acc ++ sep ++ x) (Or.inl (substr_appL _ (substr_appL _ h)))
      · rcases List.mem_cons.mp hc with rfl | hmem
        · exact ih (acc ++ sep ++ c) (Or.inl (substr_appR _ hcp))
        · exact ih (acc ++ sep ++ x) (Or.inr ⟨c, hmem, hcp⟩)

theorem substr_intercalate {l : List String} {c pat : String} (sep : String)
    (hmem : c ∈ l) (h : Substr c pat) :
    Substr (String.intercalate sep l) pat := by
  cases l with
  | nil => exact absurd hmem (List.not_mem_nil c)
  | cons x xs =>
      rw [String.intercalate]
      rcases List.mem_cons.mp hmem with rfl | hmem'
      · exact substr_intercalate_go xs c (Or.inl h)
      · exact substr_intercalate_go xs x (Or.inr ⟨c, hmem', h⟩)

/-- Model of Python's `str.replace` at the character level: replace
every non-overlapping occurrence of `pat`, scanning left to right.  The
fuel argument (instantiated with the string length) only serves to make
the recursion structural; one character is consumed per step, so the
fuel never runs out on the instances used. -/
def listReplaceAux (rep pat : List Char) : Nat → List Char → List Char
  | 0, l => l
  | _ + 1, [] => []
  | fuel + 1, c :: cs =>
      if pat ≠ [] ∧ pat.isPrefixOf (c :: cs) then
        rep ++ listReplaceAux rep pat fuel ((c :: cs).drop pat.length)
      else c :: listReplaceAux rep pat fuel cs

/-- Model of Python's `str.replace` (all occurrences). -/
def pyReplace (s pattern replacement : String) : String :=
  ⟨listReplaceAux replacement.data pattern.data s.data.length s.data⟩

/-- Model of Python's `str.lower` (character-wise lowering). -/
def pyLower (s : String) : String := ⟨s.data.map Char.toLower⟩

/-- Rendering of a Python `None`-able string attribute inside an f-string:
`None` prints as the literal text `None`. -/
def optStr : Option String → String
  | some s => s
  | none => "None"

/-- Rendering of a Python float inside an f-string.  Floats are modelled
as rationals; the exact digit string is irrelevant to the claims, which
only inspect the rendered value's identity. -/
def pyFloatStr (q : ℚ) : String :=
  if q.den = 1 then toString q.num else toString q.num ++ "/" ++ toString q.den

/-- Modelled from the spec: `src/dl/xmatch/conversions.py` is imported by
`search_types.py` (`from .conversions import arcs_to_deg`) but is not part
of the provided sources.  The spec states that the radius is
"converted once at construction from the caller-facing unit (arcseconds)"
to degrees, with `2.0` arcseconds becoming `2.0/3600` degrees. -/
def arcs_to_deg (arcsecs : ℚ) : ℚ := arcsecs / 3600

/-! ## `table.py` — table kinds and `XMatchTable` -/

namespace TableTypes

/-- `TableTypes.MYDB` (`table.py`): user scratch tables. -/
def MYDB : String := "mydb"

/-- `TableTypes.VOS` (`table.py`): object-store tables. -/
def VOS : String := "vos"

/-- `TableTypes.TAPDB` (`table.py`): managed catalog tables. -/
def TAPDB : String := "tap"

/-- `TableTypes.CSV_FILE` (`table.py`): local CSV files. -/
def CSV_FILE : String := "csv_f"

/-- `TableTypes.detect_type` (`table.py` lines 16-29).  The Python code
evaluates `table_name[0]` in the third branch, which raises `IndexError`
on the empty string; the conditions are otherwise checked in source
order with short-circuiting. -/
def detect_type (table_name : String) : Except PyErr String :=
  if strContains "mydb://" table_name then .ok MYDB
  else if strContains "vos://" table_name then .ok VOS
  else
    match table_name.data with
    | [] => .error .indexError
    | c :: _ =>
        if c = '/' || strContains ".csv" (pyLower table_name) then .ok CSV_FILE
        else .ok TAPDB

end TableTypes

/-- `XMatchTable` (`table.py`): fields in the order of `__init__`.
`table_type` is the attribute computed by `__init__`/`set_name` via
`TableTypes.detect_type`; the smart constructor `XMatchTable.make` below
establishes that link. -/
structure XMatchTable where
  name : String
  output_cols : List String
  table_type : String
  ra : String
  dec : String
  import_name : String
  error_circle : Option String
  major_axis : Option String
  axis_ratio : Option String
  pos_angle : Option String
deriving DecidableEq, Repr

/-- `XMatchTable.__init__` (`table.py` lines 53-67).  A falsy
`output_cols` argument (Python `None` or the empty list) defaults to
`["all"]`; `detect_type` may raise, which the constructor propagates. -/
def XMatchTable.make (table_name : String) (output_cols : Option (List String))
    (ra dec import_name : String)
    (error_circle major_axis axis_ratio' pos_angle : Option String) :
    Except PyErr XMatchTable := do
  let tt ← TableTypes.detect_type table_name
  .ok { name := table_name
        output_cols := match output_cols with
          | some (c :: cs) => c :: cs
          | _ => ["all"]
        table_type := tt
        ra := ra
        dec := dec
        import_name := import_name
        error_circle := error_circle
        major_axis := major_axis
        axis_ratio := axis_ratio'
        pos_angle := pos_angle }

/-- `XMatchTable.alias` (`table.py` lines 86-94): replace the
kind-specific symbol (`://` for mydb/vos tables, `.` otherwise) with
`__`. -/
def XMatchTable.alias (t : XMatchTable) : String :=
  let delimeter := "__"
  let t_symbol :=
    if t.table_type = TableTypes.MYDB || t.table_type = TableTypes.VOS
    then "://" else "."
  pyReplace t.name t_symbol delimeter

/-- `XMatchTable.set_name` (`table.py` lines 69-74): update `name` and
recompute `table_type`. -/
def XMatchTable.set_name (t : XMatchTable) (name : String) :
    Except PyErr XMatchTable := do
  let tt ← TableTypes.detect_type name
  .ok { t with name := name, table_type := tt }

/-- `XMatchTable.mydb_name` (`table.py` lines 76-84). -/
def XMatchTable.mydb_name (t : XMatchTable) : String :=
  if t.table_type = TableTypes.CSV_FILE || t.table_type = TableTypes.VOS
  then "mydb://" ++ t.import_name
  else t.name

/-- The import-failure message raised by `XMatchTable.prepare`
(`table.py` lines 113-117), as the join of its f-string parts. -/
def importMsg (t : XMatchTable) : String :=
  String.join
    [ "Error encoutered during the import process of ",
      t.name,
      ". Ensure that the file exists and the mydb table name \x27",
      t.import_name,
      "\x27 isn\x27t taken" ]

/-- The post-import (indexing) failure message raised by
`XMatchTable.prepare` (`table.py` lines 125-129). -/
def postImportMsg : String :=
  "Error encoutered during the post import process. Usually " ++
  "this is an indication that the table wasn\x27t indexed " ++
  "properly"

/-- The callback `prepare` selects (`table.py` lines 103-107):
`csv_file` for CSV tables, `vos_file` for object-store tables, `None`
otherwise.  An injected callback is modelled by its outcome: `.ok ()`
for a callback that returns, `.error e` for one that raises. -/
def importCallOf (t : XMatchTable)
    (csv_file vos_file : Option (Except String Unit)) :
    Option (Except String Unit) :=
  let prepare_call : Option (Except String Unit) := none
  let prepare_call :=
    if t.table_type = TableTypes.CSV_FILE then csv_file else prepare_call
  let prepare_call :=
    if t.table_type = TableTypes.VOS then vos_file else prepare_call
  prepare_call

/-- `XMatchTable.prepare` (`table.py` lines 96-129): run the import
callback if one applies (wrapping its failure in an `XMatchException`
that names the table and its import name), then rewrite the name via
`set_name(mydb_name())`, then run the post-import callback (wrapping its
failure in a distinct `XMatchException`).  The Python method mutates the
table in place; here the updated table is returned. -/
def XMatchTable.prepare (t : XMatchTable)
    (csv_file vos_file on_import : Option (Except String Unit)) :
    Except PyErr XMatchTable :=
  let prepare_call := importCallOf t csv_file vos_file
  match prepare_call with
  | some (.error _) => .error (.xmatch (importMsg t))
  | _ =>
    match t.set_name t.mydb_name with
    | .error e => .error e
    | .ok t' =>
      match prepare_call, on_import with
      | some _, some (.error _) => .error (.xmatch postImportMsg)
      | _, _ => .ok t'

/-- `XMatchTable.request_format` (`table.py` lines 132-146), the wire
form of one table. -/
structure TableReq where
  table_name : String
  output_cols : List String
  ra : String
  dec : String
  import_name : String
  error_circle : Option String
  major_axis : Option String
  axis_ratio : Option String
  pos_angle : Option String
deriving DecidableEq, Repr

/-- `XMatchTable.request_format` (`table.py` lines 132-146). -/
def XMatchTable.request_format (t : XMatchTable) : TableReq :=
  { table_name := t.name
    output_cols := t.output_cols
    ra := t.ra
    dec := t.dec
    import_name := t.import_name
    error_circle := t.error_circle
    major_axis := t.major_axis
    axis_ratio := t.axis_ratio
    pos_angle := t.pos_angle }

/-! ## `search_types.py` — search strategies and SQL generation -/

/-- Truthiness of Python's `None`-able booleans (`use_error_col` defaults
to `None`, and the code tests it with `if self.use_error_col:`). -/
def truthy : Option Bool → Bool
  | some b => b
  | none => false

/-- The idiom `match_table = dl_table if dl_table else tables[-1]`
(`search_types.py` lines 67, 162, 237, 265); `tables[-1]` raises
`IndexError` on an empty list. -/
def lastTable (tables : List XMatchTable) (dl_table : Option XMatchTable) :
    Except PyErr XMatchTable :=
  match dl_table with
  | some d => .ok d
  | none =>
      match tables.getLast? with
      | some t => .ok t
      | none => .error .indexError

/-- The idiom
`targets = tables[:-1] if not dl_table and len(tables) > 1 else tables`
(`search_types.py` lines 68, 163, 238, 266). -/
def targetsOf (tables : List XMatchTable) (dl_table : Option XMatchTable) :
    List XMatchTable :=
  if dl_table.isNone && decide (1 < tables.length) then tables.dropLast
  else tables

namespace Q3CSearchBase

/-- One distance output column of `_Q3CSearchBase.q3c_dist_cols`
(`search_types.py` lines 72-75), as the join of the f-string's parts. -/
def distFrag (table match_table : XMatchTable) : String :=
  let alias' := table.alias
  let m_alias := match_table.alias
  String.join
    [ "(q3c_dist(",
      "\n                    ",
      alias' ++ ("." ++ table.ra) ++ ", " ++ alias' ++ ("." ++ table.dec) ++ ",",
      "\n                    ",
      m_alias ++ ("." ++ match_table.ra) ++ ", " ++
        m_alias ++ ("." ++ match_table.dec),
      "\n                ",
      ")*3600.0) as ",
      alias' ++ "_dist_arcsec" ]

/-- `_Q3CSearchBase.q3c_dist_cols` (`search_types.py` lines 60-76), as
the list it accumulates before `",\n".join`. -/
def q3cDistFrags (tables : List XMatchTable) (dl_table : Option XMatchTable) :
    Except PyErr (List String) := do
  let match_table ← lastTable tables dl_table
  .ok ((targetsOf tables dl_table).map (fun table => distFrag table match_table))

/-- `_Q3CSearchBase.q3c_dist_cols` (`search_types.py` lines 60-76). -/
def q3c_dist_cols (tables : List XMatchTable) (dl_table : Option XMatchTable) :
    Except PyErr String := do
  let frags ← q3cDistFrags tables dl_table
  .ok (String.intercalate ",\n" frags)

/-- The idiom `all_tables = tables if not dl_table else tables + [dl_table]`
(`search_types.py` lines 85, 105). -/
def allTablesOf (tables : List XMatchTable) (dl_table : Option XMatchTable) :
    List XMatchTable :=
  match dl_table with
  | none => tables
  | some d => tables ++ [d]

/-- One output-column expression of `_Q3CSearchBase.col_sql`
(`search_types.py` lines 88-95): `<alias>_<col>` aliasing, bare names for
Data Lab (`tap`) tables, `<alias>.*` for the sentinel column `all`. -/
def colFor (table : XMatchTable) (col : String) : String :=
  let alias' := table.alias
  let col_name :=
    if table.table_type = TableTypes.TAPDB then col else alias' ++ "_" ++ col
  if col = "all" then alias' ++ ".*"
  else alias' ++ ("." ++ col) ++ " as " ++ col_name

/-- `_Q3CSearchBase.col_sql` (`search_types.py` lines 78-99), as the
`output_cols` list it accumulates (the joined distance columns are
appended as the final element) before `",\n".join`. -/
def colFrags (tables : List XMatchTable) (dl_table : Option XMatchTable) :
    Except PyErr (List String) := do
  let output_cols :=
    (allTablesOf tables dl_table).flatMap
      (fun table => table.output_cols.map (colFor table))
  let dist ← q3c_dist_cols tables dl_table
  .ok (output_cols ++ [dist])

/-- `_Q3CSearchBase.col_sql` (`search_types.py` lines 78-99). -/
def col_sql (tables : List XMatchTable) (dl_table : Option XMatchTable) :
    Except PyErr String := do
  let frags ← colFrags tables dl_table
  .ok (String.intercalate ",\n" frags)

/-- `_Q3CSearchBase.from_sql` (`search_types.py` lines 101-108). -/
def from_sql (tables : List XMatchTable) (dl_table : Option XMatchTable) :
    String :=
  String.intercalate ",\n"
    ((allTablesOf tables dl_table).map
      (fun table => table.name ++ " as " ++ table.alias))

end Q3CSearchBase

/-- `NearestNeighbor` configuration (`search_types.py` lines 147-157);
`radius` is stored already converted to degrees by `__init__`. -/
structure NearestNeighbor where
  radius : ℚ
  exclude_non_matches : Bool
  use_error_col : Option Bool
deriving DecidableEq

/-- `NearestNeighbor.__init__` (`search_types.py` lines 153-157):
converts the caller's arcsecond radius to degrees exactly once. -/
def NearestNeighbor.make (radius : ℚ) (exclude_non_matches : Bool)
    (use_error_col : Option Bool) : NearestNeighbor :=
  { radius := arcs_to_deg radius
    exclude_non_matches := exclude_non_matches
    use_error_col := use_error_col }

/-- The `search_deg` value of `NearestNeighbor.join_sql`
(`search_types.py` lines 169-171), as rendered into the f-string:
the fixed radius, or the target's `error_circle` column name when
`use_error_col` is truthy. -/
def NearestNeighbor.searchDegStr (st : NearestNeighbor)
    (table : XMatchTable) : String :=
  if truthy st.use_error_col then optStr table.error_circle
  else pyFloatStr st.radius

/-- One lateral-join fragment of `NearestNeighbor.join_sql`
(`search_types.py` lines 164-192), as the join of the f-string's parts. -/
def NearestNeighbor.joinFrag (st : NearestNeighbor)
    (table match_t : XMatchTable) : String :=
  let alias' := table.alias
  let m_alias := match_t.alias ++ "_sub_" ++ alias'
  let j_type := if st.exclude_non_matches then "INNER JOIN" else "LEFT JOIN"
  let null_join := if st.exclude_non_matches then "ON true" else "ON true"
  let search_deg := st.searchDegStr table
  String.join
    [ "\n                ",
      j_type ++ " LATERAL (",
      "\n                    SELECT",
      "\n                        ",
      m_alias ++ ".*",
      "\n                    FROM",
      "\n                        ",
      match_t.name ++ " AS " ++ m_alias,
      "\n                    WHERE q3c_join(",
      "\n                            ",
      alias' ++ ("." ++ table.ra) ++ ", " ++ alias' ++ ("." ++ table.dec) ++ ",",
      "\n                            ",
      m_alias ++ ("." ++ match_t.ra) ++ ",",
      "\n                            ",
      m_alias ++ ("." ++ match_t.dec) ++ ",",
      "\n                            ",
      search_deg,
      "\n                        )",
      "\n                    ORDER BY",
      "\n                        q3c_dist(",
      "\n                            ",
      alias' ++ ("." ++ table.ra) ++ ", " ++ alias' ++ ("." ++ table.dec) ++ ",",
      "\n                            ",
      m_alias ++ ("." ++ match_t.ra) ++ ",",
      "\n                            ",
      m_alias ++ ("." ++ match_t.dec),
      "\n                        )",
      "\n                    ASC LIMIT 1",
      "\n                ",
      ") as " ++ match_t.alias ++ " " ++ null_join,
      "\n            " ]

/-- `NearestNeighbor.join_sql` (`search_types.py` lines 159-193), as the
list it accumulates before `"\nAND\n".join`. -/
def NearestNeighbor.joinFrags (st : NearestNeighbor)
    (tables : List XMatchTable) (dl_table : Option XMatchTable) :
    Except PyErr (List String) := do
  let match_t ← lastTable tables dl_table
  .ok ((targetsOf tables dl_table).map (fun table => st.joinFrag table match_t))

/-- `NearestNeighbor.join_sql` (`search_types.py` lines 159-193). -/
def NearestNeighbor.join_sql (st : NearestNeighbor)
    (tables : List XMatchTable) (dl_table : Option XMatchTable) :
    Except PyErr String := do
  let frags ← st.joinFrags tables dl_table
  .ok (String.intercalate "\nAND\n" frags)

/-- `NearestNeighbor.from_sql` (`search_types.py` lines 195-201): unlike
the base class, only the target tables appear in the FROM list. -/
def NearestNeighbor.from_sql (tables : List XMatchTable)
    (dl_table : Option XMatchTable) : String :=
  String.intercalate ",\n"
    ((targetsOf tables dl_table).map
      (fun table => table.name ++ " as " ++ table.alias))

/-- `NearestNeighbor.where_sql` (`search_types.py` lines 203-206): the
tautology, because all matching work happens in the join. -/
def NearestNeighbor.where_sql : String := "1=1"

/-- `NearestNeighbor.options` (`search_types.py` lines 208-214). -/
structure NNOptions where
  radius : ℚ
  exclude_non_matches : Bool
  use_error_col : Option Bool
deriving DecidableEq

/-- `NearestNeighbor.options` (`search_types.py` lines 208-214). -/
def NearestNeighbor.options (st : NearestNeighbor) : NNOptions :=
  { radius := st.radius
    exclude_non_matches := st.exclude_non_matches
    use_error_col := st.use_error_col }

/-- `AllMatches` configuration (`search_types.py` lines 217-232);
`radius` is stored already converted to degrees by `__init__`. -/
structure AllMatches where
  radius : ℚ
  use_error_circle : Bool
deriving DecidableEq

/-- `AllMatches.__init__` (`search_types.py` lines 223-226). -/
def AllMatches.make (radius : ℚ) (use_error_circle : Bool) : AllMatches :=
  { radius := arcs_to_deg radius
    use_error_circle := use_error_circle }

/-- The `search_deg` value of `AllMatches.where_sql` (`search_types.py`
lines 242-244), as rendered into the f-string. -/
def AllMatches.searchDegStr (st : AllMatches) (table : XMatchTable) : String :=
  if st.use_error_circle then table.alias ++ ("." ++ optStr table.error_circle)
  else pyFloatStr st.radius

/-- One spatial predicate of `AllMatches.where_sql` (`search_types.py`
lines 245-251), as the join of the f-string's parts. -/
def AllMatches.whereFrag (st : AllMatches) (table match_t : XMatchTable) :
    String :=
  let alias' := table.alias
  let m_alias := match_t.alias
  String.join
    [ "\n                ",
      "q3c_join(",
      "\n                    ",
      alias' ++ ("." ++ table.ra) ++ ", " ++ alias' ++ ("." ++ table.dec) ++ ",",
      "\n                    ",
      m_alias ++ ("." ++ match_t.ra) ++ ", " ++
        m_alias ++ ("." ++ match_t.dec) ++ ",",
      "\n                    ",
      st.searchDegStr table,
      "\n                ",
      ")",
      "\n            " ]

/-- `AllMatches.where_sql` (`search_types.py` lines 234-252), as the list
it accumulates before `"\nAND\n".join`. -/
def AllMatches.whereFrags (st : AllMatches) (tables : List XMatchTable)
    (dl_table : Option XMatchTable) : Except PyErr (List String) := do
  let match_t ← lastTable tables dl_table
  .ok ((targetsOf tables dl_table).map (fun table => st.whereFrag table match_t))

/-- `AllMatches.where_sql` (`search_types.py` lines 234-252). -/
def AllMatches.where_sql (st : AllMatches) (tables : List XMatchTable)
    (dl_table : Option XMatchTable) : Except PyErr String := do
  let frags ← st.whereFrags tables dl_table
  .ok (String.intercalate "\nAND\n" frags)

/-- `AllMatches.options` (`search_types.py` lines 228-232). -/
structure AMOptions where
  radius : ℚ
  use_error_circle : Bool
deriving DecidableEq

/-- `AllMatches.options` (`search_types.py` lines 228-232). -/
def AllMatches.options (st : AllMatches) : AMOptions :=
  { radius := st.radius
    use_error_circle := st.use_error_circle }

namespace AllMatchesEllipse

/-- One ellipse predicate of `AllMatchesEllipse.where_sql`
(`search_types.py` lines 270-277); the shape columns are `None`-able and
are interpolated without any check, so a missing column renders as the
literal text `None`. -/
def whereFrag (table match_t : XMatchTable) : String :=
  let alias' := table.alias
  let m_alias := match_t.alias
  String.join
    [ "\n                ",
      "q3c_ellipse_join(",
      "\n                    ",
      alias' ++ ("." ++ table.ra) ++ ", " ++ alias' ++ ("." ++ table.dec) ++ ",",
      "\n                    ",
      m_alias ++ ("." ++ match_t.ra) ++ ", " ++
        m_alias ++ ("." ++ match_t.dec) ++ ",",
      "\n                    ",
      alias' ++ ("." ++ optStr table.major_axis) ++ ", " ++
        alias' ++ ("." ++ optStr (XMatchTable.axis_ratio table)) ++ ",",
      "\n                    ",
      alias' ++ ("." ++ optStr table.pos_angle),
      "\n                ",
      ")",
      "\n            " ]

/-- `AllMatchesEllipse.where_sql` (`search_types.py` lines 262-278), as
the list it accumulates before `"\nAND\n".join`. -/
def whereFrags (tables : List XMatchTable) (dl_table : Option XMatchTable) :
    Except PyErr (List String) := do
  let match_t ← lastTable tables dl_table
  .ok ((targetsOf tables dl_table).map (fun table => whereFrag table match_t))

/-- `AllMatchesEllipse.where_sql` (`search_types.py` lines 262-278). -/
def where_sql (tables : List XMatchTable) (dl_table : Option XMatchTable) :
    Except PyErr String := do
  let frags ← whereFrags tables dl_table
  .ok (String.intercalate "\nAND\n" frags)

end AllMatchesEllipse

/-- The closed set of concrete search strategies of `search_types.py`:
`NearestNeighbor`, `AllMatches` and `AllMatchesEllipse` (the latter has
no configuration of its own). -/
inductive SearchType where
  | nn : NearestNeighbor → SearchType
  | am : AllMatches → SearchType
  | ame : SearchType

/-- The `type_key` class attribute of each strategy. -/
def SearchType.type_key : SearchType → String
  | .nn _ => "nearest_neighbor"
  | .am _ => "all_matches_spherical"
  | .ame => "all_matches_ellipse"

/-- Virtual dispatch of `from_sql`: `NearestNeighbor` overrides the base
implementation, the other strategies inherit it. -/
def SearchType.from_sql : SearchType → List XMatchTable →
    Option XMatchTable → String
  | .nn _, tables, dl_table => NearestNeighbor.from_sql tables dl_table
  | _, tables, dl_table => Q3CSearchBase.from_sql tables dl_table

/-- Virtual dispatch of `join_sql`: the base returns `""`
(`search_types.py` lines 110-114), `NearestNeighbor` overrides it. -/
def SearchType.join_sql : SearchType → List XMatchTable →
    Option XMatchTable → Except PyErr String
  | .nn c, tables, dl_table => NearestNeighbor.join_sql c tables dl_table
  | _, _, _ => .ok ""

/-- Virtual dispatch of `where_sql`. -/
def SearchType.where_sql : SearchType → List XMatchTable →
    Option XMatchTable → Except PyErr String
  | .nn _, _, _ => .ok NearestNeighbor.where_sql
  | .am c, tables, dl_table => AllMatches.where_sql c tables dl_table
  | .ame, tables, dl_table => AllMatchesEllipse.where_sql tables dl_table

/-- `_Q3CSearchBase.sql` (`search_types.py` lines 116-144): assemble the
four fragments; `col_sql` is evaluated first, so its `IndexError` on an
empty table list surfaces before anything else. -/
def SearchType.sql (st : SearchType) (tables : List XMatchTable)
    (dl_table : Option XMatchTable) : Except PyErr String := do
  let output_cols ← Q3CSearchBase.col_sql tables dl_table
  let from_clause := st.from_sql tables dl_table
  let join_clause ← st.join_sql tables dl_table
  let where_clause ← st.where_sql tables dl_table
  .ok (String.join
    [ "\n            SELECT\n                ",
      output_cols,
      "\n            FROM\n                ",
      from_clause,
      "\n                ",
      join_clause,
      "\n            WHERE\n                ",
      where_clause,
      "\n        " ])

/-- `True` exactly when an `Except` outcome is the package's own
`XMatchException` (the spec's `CompilationError`). -/
def isXMatchErr {α : Type} : Except PyErr α → Bool
  | .error (.xmatch _) => true
  | _ => false

/-! ## `http.py` — request validation and the wire codec -/

/-- One entry of a request's table list, as the validator reads it: a
JSON dictionary whose only inspected key is `table_name`
(`table_data.get("table_name", "")`; a dictionary without the key reads
as `""`).  A Python `None` or empty (falsy) dictionary is modelled by
`none` at the use sites. -/
structure XmTableDesc where
  table_name : String
deriving DecidableEq, Repr

/-- Rendering of `json.dumps(table_data, skipkeys=True)` for the
modelled single-key descriptor. -/
def jsonOfTable (d : XmTableDesc) : String :=
  "\x7b\"table_name\": \"" ++ d.table_name ++ "\"\x7d"

/-- `XMatchRequest.is_valid_xm_table` (`http.py` lines 17-32): returns
`(None, msg)` for a falsy argument, otherwise `(True/False, joined msgs)`.
The first component is `Option Bool` because Python returns the literal
`None` in the falsy case. -/
def is_valid_xm_table (table_data : Option XmTableDesc) :
    Option Bool × String :=
  match table_data with
  | none => (none, "no table was provided")
  | some d =>
      if d.table_name.length = 0 then
        (some false,
          "The \x27table_name\x27 key is required for an xmatch table" ++
          ". Received " ++ jsonOfTable d)
      else (some true, "")

/-- An inbound request payload as `validate_payload` reads it:
`tables` is `xm_data.get('tables', [])` (each element a possibly-falsy
descriptor), `has_dl_key` records `'dl_table' in xm_data`, and
`dl_table` is `xm_data.get('dl_table', None)` collapsed through Python
truthiness (`none` for an absent key, an explicit `null`, or a falsy
dictionary). -/
structure XmPayload where
  tables : List (Option XmTableDesc)
  has_dl_key : Bool
  dl_table : Option XmTableDesc
deriving DecidableEq, Repr

/-- The message of the `dl_table` rule (`http.py` lines 52-53). -/
def dlRequiredMsg : String :=
  "The \x27dl_table\x27 key is required when only one " ++
  "mydb table is provided."

/-- The for-loop of `validate_payload` (`http.py` lines 54-57): the
message of the first table failing `is_valid_xm_table`, if any.
The loop treats any non-`True` verdict (Python `None` or `False`) as a
failure. -/
def firstInvalid : List (Option XmTableDesc) → Option String
  | [] => none
  | t :: ts =>
      let r := is_valid_xm_table t
      if r.1 ≠ some true then some r.2 else firstInvalid ts

/-- `XMatchRequest.validate_payload` (`http.py` lines 34-59).  The
argument is `none` for a falsy `xm_data` (absent or empty body).  Checks
run in source order, short-circuiting: body present; `tables` non-empty;
the `dl_table` *key* present whenever exactly one table is given; every
table descriptor (targets, plus `dl_table` when truthy) valid.  Returns
a verdict pair and never raises. -/
def validate_payload (xm_data : Option XmPayload) : Bool × String :=
  match xm_data with
  | none => (false, "request body must be valid JSON")
  | some p =>
      let user_tables := p.tables
      let all_tables :=
        match p.dl_table with
        | none => user_tables
        | some d => user_tables ++ [some d]
      if user_tables.length = 0 then
        (false,
          "The \x27tables\x27 key is required and must contain" ++
          " at least one mydb table")
      else if user_tables.length = 1 && !p.has_dl_key then
        (false, dlRequiredMsg)
      else
        match firstInvalid all_tables with
        | some msg => (false, msg)
        | none => (true, "Success")

/-- The methods that exist on the search-type classes: `options()` is
defined (`search_types.py` lines 49-51, 208-214, 228-232), but no search
type defines `request_format`; the lookup
`search_type.request_format()` in `XMatchRequest.format` (`http.py`
line 86) therefore raises `AttributeError` in Python.  The result type
is the `NNOptions`/`AMOptions`-style dictionary the call was evidently
meant to produce. -/
def SearchType.request_format (_st : SearchType) :
    Except PyErr (Option NNOptions × Option AMOptions) :=
  .error .attributeError

/-- The payload dictionary built by `XMatchRequest.format`
(`http.py` lines 69-77). -/
structure FormatPayload where
  tables : List TableReq
  dl_table : Option TableReq
  radius : ℚ
  search_type : String
  search_options : Option NNOptions × Option AMOptions
  async_ : Bool
  output_options : Option String

/-- `XMatchRequest.format` (`http.py` lines 61-88): build the wire
payload; the `search_options` assignment calls
`search_type.request_format()`, a method no search type has. -/
def XMatchRequest.format (tables : List XMatchTable)
    (dl_table : Option XMatchTable) (search_type : SearchType)
    (radius : ℚ) (async_ : Bool) (output_options : Option String) :
    Except PyErr FormatPayload := do
  let tableReqs := tables.map XMatchTable.request_format
  let dlReq := dl_table.map XMatchTable.request_format
  let search_options ← search_type.request_format
  .ok { tables := tableReqs
        dl_table := dlReq
        radius := radius
        search_type := search_type.type_key
        search_options := search_options
        async_ := async_
        output_options := output_options }

/-! ## `job.py` — asynchronous job handle -/

namespace Status

/-- `Status.COMPLETED` (`job.py`). -/
def COMPLETED : String := "COMPLETED"

/-- `Status.EXECUTING` (`job.py`). -/
def EXECUTING : String := "EXECUTING"

/-- `Status.ERROR` (`job.py`). -/
def ERROR : String := "ERROR"

/-- `Status.ABORTED` (`job.py`). -/
def ABORTED : String := "ABORTED"

end Status

/-- The execution collaborator (`dl.queryClient`), modelled at its
interface: `status`, `results` and `abort`, each taking the opaque token
and a job id. -/
structure queryClient where
  status : Option String → String → String
  results : Option String → String → String
  abort : Option String → String → String

/-- `Job` (`job.py` lines 17-47): a job id plus the collaborator. -/
structure Job where
  id : String
  qc : queryClient

/-- `Job.status_text` (`job.py` lines 25-27). -/
def Job.status_text (j : Job) : String := j.qc.status none j.id

/-- `Job.done` (`job.py` lines 29-31): finished iff the status is not
`EXECUTING`. -/
def Job.done (j : Job) : Bool := j.status_text != Status.EXECUTING

/-- `Job.error` (`job.py` lines 33-35). -/
def Job.error (j : Job) : Bool := j.status_text == Status.ERROR

/-- `Job.success` (`job.py` lines 37-39). -/
def Job.success (j : Job) : Bool := j.status_text == Status.COMPLETED

/-! ## Theorems settling the claims -/

/-- C3: the table-kind classifier is **not** total.  On the empty string
(the function's own default argument), `detect_type` evaluates
`table_name[0]` after the two marker checks fail and raises
`IndexError` instead of returning the managed-catalog default. -/
theorem C3_classifier_raises_on_empty_string :
    TableTypes.detect_type "" = .error .indexError := rfl

/-- C6 counterexample: invoking `sql()` with an empty targets list and no
primary table does fail, but with an uncaught `IndexError` from
`tables[-1]` in `q3c_dist_cols`, not with the package's own
`XMatchException`/`CompilationError` (shown here for the ellipse
strategy). -/
theorem C6_counterexample :
    SearchType.sql .ame [] none = .error .indexError ∧
    isXMatchErr (SearchType.sql .ame [] none) = false :=
  ⟨rfl, rfl⟩

/-- C6 (amended): for every strategy, invoking the `sql()` compilation
entry point with an empty targets list and no primary table fails with
an uncaught `IndexError` (raised by `tables[-1]` inside
`q3c_dist_cols`, which `col_sql` reaches first), not with a
`CompilationError`. -/
theorem C6_amended_sql_empty_targets (st : SearchType) :
    SearchType.sql st [] none = .error .indexError ∧
    isXMatchErr (SearchType.sql st [] none) = false := by
  cases st <;> exact ⟨rfl, rfl⟩

/-- C7: encoding a strategy to the wire payload crashes.
`XMatchRequest.format` assigns
`data["search_options"] = search_type.request_format()`, but no search
type class defines `request_format` (they define `options()`), so the
attribute lookup raises `AttributeError` — here evaluated at the
`NearestNeighbor(radius=5, exclude_non_matches=True)` configuration of
the claim.  No payload carrying `search_options` is ever produced, and
the round trip cannot even start. -/
theorem C7_format_raises_attribute_error :
    XMatchRequest.format [] none (.nn (NearestNeighbor.make 5 true none))
      5 true none = .error .attributeError := rfl

/-- C9: for every job handle (hence every status string its collaborator
reports), `done()` holds iff the status is not `EXECUTING` — so a
`"QUEUED"` status counts as done — `success()` holds iff the status is
`COMPLETED`, and `error()` holds iff the status is `ERROR`. -/
theorem C9_job_status_predicates (j : Job) :
    (j.done = true ↔ j.status_text ≠ Status.EXECUTING) ∧
    (j.success = true ↔ j.status_text = Status.COMPLETED) ∧
    (j.error = true ↔ j.status_text = Status.ERROR) ∧
    (j.status_text = "QUEUED" → j.done = true) := by
  refine ⟨?_, ?_, ?_, ?_⟩
  · simp [Job.done]
  · simp [Job.success]
  · simp [Job.error]
  · intro h
    simp [Job.done, h, Status.EXECUTING]

/-- C9 witness: a collaborator reporting `"QUEUED"` yields a job that is
already `done()`. -/
theorem C9_witness :
    (Job.mk "jid"
      ⟨fun _ _ => "QUEUED", fun _ _ => "", fun _ _ => ""⟩).done = true :=
  (C9_job_status_predicates _).2.2.2 rfl

/-- C10: a single-element table list with no primary table is not
rejected: the sole table serves as both target and match table, so the
distance column, the `AllMatches` spatial predicate and the
`NearestNeighbor` lateral join all compare the table's coordinate
columns against themselves, and `sql()` succeeds for all three
strategies. -/
theorem C10_single_table_self_match (c : AllMatches) (n : NearestNeighbor)
    (t : XMatchTable) :
    AllMatches.whereFrags c [t] none = .ok [c.whereFrag t t] ∧
    Q3CSearchBase.q3cDistFrags [t] none = .ok [Q3CSearchBase.distFrag t t] ∧
    NearestNeighbor.joinFrags n [t] none = .ok [n.joinFrag t t] ∧
    (SearchType.sql (.am c) [t] none).isOk = true ∧
    (SearchType.sql (.nn n) [t] none).isOk = true ∧
    (SearchType.sql .ame [t] none).isOk = true :=
  ⟨rfl, rfl, rfl, rfl, rfl, rfl⟩

theorem str_eq_empty_of_length_eq_zero {s : String} (h : s.length = 0) :
    s = "" := by
  cases s with
  | mk data =>
      cases data with
      | nil => rfl
      | cons a l => simp [String.length] at h

theorem firstInvalid_eq_none {l : List (Option XmTableDesc)}
    (h : ∀ e ∈ l, ∃ d, e = some d ∧ d.table_name ≠ "") :
    firstInvalid l = none := by
  induction l with
  | nil => rfl
  | cons x xs ih =>
      obtain ⟨d, hx, hd⟩ := h x (List.mem_cons_self x xs)
      subst hx
      have hlen : ¬ d.table_name.length = 0 := fun hc =>
        hd (str_eq_empty_of_length_eq_zero hc)
      simp only [firstInvalid, is_valid_xm_table, if_neg hlen]
      simp only [ne_eq, not_true_eq_false, if_false, ite_false,
        reduceIte]
      exact ih (fun e he => h e (List.mem_cons_of_mem _ he))

/-- C4 counterexample: a payload whose tables list has exactly one
(valid) entry and in which **no primary table is given** — the
`dl_table` key is present but holds JSON `null` — is *accepted*:
`validate_payload` returns `(true, "Success")` instead of `(false, …)`
citing the `dl_table` requirement, because the code tests key presence
(`'dl_table' not in xm_data`), not whether a primary table was given. -/
theorem C4_counterexample :
    (XmPayload.mk [some ⟨"t1"⟩] true none).dl_table = none ∧
    validate_payload (some (XmPayload.mk [some ⟨"t1"⟩] true none)) =
      (true, "Success") :=
  ⟨rfl, rfl⟩

/-- C4 (amended): for every payload whose tables list has exactly one
entry and which **lacks the `dl_table` key entirely**, `validate_payload`
returns `(false, msg)` with `msg` citing `dl_table`; for every payload
with at least two tables in which every table descriptor present
(including a truthy `dl_table`) carries a non-empty `table_name`, it
returns `(true, "Success")`.  (A single-table payload with an explicit
`dl_table: null` key slips through to table validation instead; see the
counterexample.)  `validate_payload` is a total function: it returns its
verdict and never raises. -/
theorem C4_amended_validate_payload (p : XmPayload) :
    (p.tables.length = 1 → p.has_dl_key = false →
      validate_payload (some p) = (false, dlRequiredMsg) ∧
      Substr dlRequiredMsg "dl_table") ∧
    (2 ≤ p.tables.length →
      (∀ e ∈ p.tables, ∃ d, e = some d ∧ d.table_name ≠ "") →
      (∀ d, p.dl_table = some d → d.table_name ≠ "") →
      validate_payload (some p) = (true, "Success")) := by
  constructor
  · intro h1 h2
    refine ⟨?_, by decide⟩
    simp [validate_payload, h1, h2]
  · intro hlen hall hdl
    have h0 : ¬ p.tables.length = 0 := by omega
    have h1 : ¬ p.tables.length = 1 := by omega
    have hfi :
        firstInvalid
          (match p.dl_table with
            | none => p.tables
            | some d => p.tables ++ [some d]) = none := by
      cases hdlt : p.dl_table with
      | none => exact firstInvalid_eq_none hall
      | some d =>
          refine firstInvalid_eq_none ?_
          intro e he
          rcases List.mem_append.mp he with hmem | hmem
          · exact hall e hmem
          · rcases List.mem_cons.mp hmem with rfl | hnil
            · exact ⟨d, rfl, hdl d hdlt⟩
            · exact absurd hnil (List.not_mem_nil e)
    simp [validate_payload, h0, h1, hfi]

/-- C4 witness: the amended claim evaluated at a one-table payload
without the `dl_table` key and at a two-table payload. -/
theorem C4_witness :
    validate_payload (some (XmPayload.mk [some ⟨"a"⟩] false none)) =
      (false, dlRequiredMsg) ∧
    validate_payload
      (some (XmPayload.mk [some ⟨"a"⟩, some ⟨"b"⟩] false none)) =
      (true, "Success") := by
  constructor
  · exact ((C4_amended_validate_payload
      (XmPayload.mk [some ⟨"a"⟩] false none)).1 rfl rfl).1
  · refine (C4_amended_validate_payload
      (XmPayload.mk [some ⟨"a"⟩, some ⟨"b"⟩] false none)).2 (by decide) ?_ ?_
    · intro e he
      rcases List.mem_cons.mp he with rfl | he2
      · exact ⟨⟨"a"⟩, rfl, by decide⟩
      · rcases List.mem_cons.mp he2 with rfl | he3
        · exact ⟨⟨"b"⟩, rfl, by decide⟩
        · exact absurd he3 (List.not_mem_nil e)
    · intro d hd
      exact Option.noConfusion hd

theorem substr_leading (p s : String) : Substr (p ++ s) p := by
  unfold Substr
  rw [String.data_append]
  exact (List.prefix_append p.data s.data).isInfix

theorem strContains_leading (p s : String) : strContains p (p ++ s) = true :=
  decide_eq_true (substr_leading p s)

theorem detect_type_mydb_marker (s : String) :
    TableTypes.detect_type ("mydb://" ++ s) = .ok TableTypes.MYDB := by
  simp [TableTypes.detect_type, strContains_leading]

/-- C8: if the applicable import callback (`csv_file` for a local-file
table, `vos_file` for an object-store table) raises, `prepare` raises a
wrapped `XMatchException` whose message names the failing table and its
intended `import_name`; the table is left unchanged (no updated table is
produced) and the `on_import` post-import callback is never consulted
(the outcome is the same whatever it is).  If the import callback
succeeds (and `on_import` is absent or succeeds), the table's location
is rewritten to the scratch form `mydb://<import_name>` and its kind is
recomputed to the scratch kind `mydb`. -/
theorem C8_prepare_wraps_and_rewrites (t : XMatchTable)
    (csv_file vos_file on_import : Option (Except String Unit)) (e : String) :
    (importCallOf t csv_file vos_file = some (.error e) →
      t.prepare csv_file vos_file on_import = .error (.xmatch (importMsg t)) ∧
      Substr (importMsg t) t.name ∧
      Substr (importMsg t) t.import_name ∧
      t.prepare csv_file vos_file on_import =
        t.prepare csv_file vos_file none) ∧
    (importCallOf t csv_file vos_file = some (.ok ()) →
      (on_import = none ∨ on_import = some (.ok ())) →
      t.prepare csv_file vos_file on_import =
        .ok { t with name := "mydb://" ++ t.import_name,
                     table_type := TableTypes.MYDB }) := by
  constructor
  · intro h
    refine ⟨?_, ?_, ?_, ?_⟩
    · simp [XMatchTable.prepare, h]
    · exact substr_join (by simp [importMsg]) (substr_refl _)
    · exact substr_join (by simp [importMsg]) (substr_refl _)
    · simp [XMatchTable.prepare, h]
  · intro h hoi
    have htype :
        t.table_type = TableTypes.CSV_FILE ∨ t.table_type = TableTypes.VOS := by
      by_cases h1 : t.table_type = TableTypes.CSV_FILE
      · exact Or.inl h1
      · by_cases h2 : t.table_type = TableTypes.VOS
        · exact Or.inr h2
        · rw [importCallOf] at h
          simp [h1, h2] at h
    have hname : t.mydb_name = "mydb://" ++ t.import_name := by
      rcases htype with h1 | h1 <;> simp [XMatchTable.mydb_name, h1]
    have hset : t.set_name t.mydb_name =
        .ok { t with name := "mydb://" ++ t.import_name,
                     table_type := TableTypes.MYDB } := by
      rw [hname]
      simp only [XMatchTable.set_name, detect_type_mydb_marker]
      rfl
    rcases hoi with rfl | rfl <;>
      simp [XMatchTable.prepare, h, hset]

/-- C8 witness: the theorem evaluated at a concrete CSV table with a
failing import callback (the wrapped message names `/d/f.csv` and
the intended `ftab` import name), and the same table with a succeeding callback
(the location becomes `mydb://ftab` of scratch kind). -/
theorem C8_witness :
    XMatchTable.prepare
      ⟨"/d/f.csv", ["all"], "csv_f", "ra", "dec", "ftab",
        none, none, none, none⟩
      (some (.error "boom")) none (some (.error "idx")) =
      .error (.xmatch (importMsg
        ⟨"/d/f.csv", ["all"], "csv_f", "ra", "dec", "ftab",
          none, none, none, none⟩)) ∧
    XMatchTable.prepare
      ⟨"/d/f.csv", ["all"], "csv_f", "ra", "dec", "ftab",
        none, none, none, none⟩
      (some (.ok ())) none none =
      .ok ⟨"mydb://ftab", ["all"], "mydb", "ra", "dec", "ftab",
        none, none, none, none⟩ := by
  constructor
  · exact ((C8_prepare_wraps_and_rewrites
      ⟨"/d/f.csv", ["all"], "csv_f", "ra", "dec", "ftab",
        none, none, none, none⟩
      (some (.error "boom")) none (some (.error "idx")) "boom").1 rfl).1
  · exact (C8_prepare_wraps_and_rewrites
      ⟨"/d/f.csv", ["all"], "csv_f", "ra", "dec", "ftab",
        none, none, none, none⟩
      (some (.ok ())) none none "unused").2 rfl (Or.inl rfl)

theorem where_sql_ame_eq {tables : List XMatchTable}
    {dl_table : Option XMatchTable} {mt : XMatchTable}
    (hmt : lastTable tables dl_table = .ok mt) :
    AllMatchesEllipse.where_sql tables dl_table =
      .ok (String.intercalate "\nAND\n"
        ((targetsOf tables dl_table).map
          (fun table => AllMatchesEllipse.whereFrag table mt))) := by
  simp only [AllMatchesEllipse.where_sql, AllMatchesEllipse.whereFrags, hmt]
  rfl

theorem col_sql_eq {tables : List XMatchTable}
    {dl_table : Option XMatchTable} {mt : XMatchTable}
    (hmt : lastTable tables dl_table = .ok mt) :
    Q3CSearchBase.col_sql tables dl_table =
      .ok (String.intercalate ",\n"
        ((Q3CSearchBase.allTablesOf tables dl_table).flatMap
            (fun table => table.output_cols.map (Q3CSearchBase.colFor table)) ++
          [String.intercalate ",\n"
            ((targetsOf tables dl_table).map
              (fun table => Q3CSearchBase.distFrag table mt))])) := by
  simp only [Q3CSearchBase.col_sql, Q3CSearchBase.colFrags,
    Q3CSearchBase.q3c_dist_cols, Q3CSearchBase.q3cDistFrags, hmt]
  rfl

theorem sql_eq (st : SearchType) (tables : List XMatchTable)
    (dl_table : Option XMatchTable) {c j w : String}
    (hc : Q3CSearchBase.col_sql tables dl_table = .ok c)
    (hj : st.join_sql tables dl_table = .ok j)
    (hw : st.where_sql tables dl_table = .ok w) :
    SearchType.sql st tables dl_table =
      .ok (String.join
        [ "\n            SELECT\n                ",
          c,
          "\n            FROM\n                ",
          st.from_sql tables dl_table,
          "\n                ",
          j,
          "\n            WHERE\n                ",
          w,
          "\n        " ]) := by
  simp only [SearchType.sql, hc, hj, hw]
  rfl

theorem ameFrag_missing_axis (t mt : XMatchTable)
    (hma : t.major_axis = none) :
    Substr (AllMatchesEllipse.whereFrag t mt) (XMatchTable.alias t ++ ".None") := by
  have hchunk : Substr
      (XMatchTable.alias t ++ ("." ++ optStr t.major_axis) ++ ", " ++
        XMatchTable.alias t ++ ("." ++ optStr (XMatchTable.axis_ratio t)) ++ ",")
      (XMatchTable.alias t ++ ".None") := by
    rw [hma]
    exact substr_appL _ (substr_appL _ (substr_appL _ (substr_appL _
      (substr_refl _))))
  unfold AllMatchesEllipse.whereFrag
  exact substr_join (by simp) hchunk

/-- C5 counterexample: compiling `AllMatchesEllipse` against a target
with no `major_axis` column does **not** raise: `sql()` returns SQL text
(and in particular no `XMatchException`/`CompilationError`). -/
theorem C5_counterexample :
    (⟨"mydb://t1", ["ra", "dec"], "mydb", "ra", "dec", "",
        none, none, none, none⟩ : XMatchTable).major_axis = none ∧
    (SearchType.sql .ame
      [⟨"mydb://t1", ["ra", "dec"], "mydb", "ra", "dec", "",
          none, none, none, none⟩]
      (some ⟨"cat", ["id"], "tap", "ra", "dec", "",
          none, none, none, none⟩)).isOk = true ∧
    isXMatchErr (SearchType.sql .ame
      [⟨"mydb://t1", ["ra", "dec"], "mydb", "ra", "dec", "",
          none, none, none, none⟩]
      (some ⟨"cat", ["id"], "tap", "ra", "dec", "",
          none, none, none, none⟩)) = false :=
  ⟨rfl, rfl, rfl⟩

/-- C5 (amended): compiling `AllMatchesEllipse` with a target that lacks
its major-axis column does not raise any error: `where_sql` and the full
`sql()` both succeed, and the missing column is silently rendered as the
Python literal `None` used as a column name
(`<alias>.None`) in the emitted predicate. -/
theorem C5_amended_ellipse_missing_axis (tables : List XMatchTable)
    (dl_table : Option XMatchTable) (mt t : XMatchTable)
    (hmt : lastTable tables dl_table = .ok mt)
    (ht : t ∈ targetsOf tables dl_table)
    (hma : t.major_axis = none) :
    ∃ w, AllMatchesEllipse.where_sql tables dl_table = .ok w ∧
      Substr w (XMatchTable.alias t ++ ".None") ∧
      ∃ s, SearchType.sql .ame tables dl_table = .ok s ∧
        Substr s (XMatchTable.alias t ++ ".None") := by
  have hwsub : Substr
      (String.intercalate "\nAND\n"
        ((targetsOf tables dl_table).map
          (fun table => AllMatchesEllipse.whereFrag table mt)))
      (XMatchTable.alias t ++ ".None") :=
    substr_intercalate _
      (List.mem_map_of_mem _ ht)
      (ameFrag_missing_axis t mt hma)
  refine ⟨_, where_sql_ame_eq hmt, hwsub, ?_⟩
  refine ⟨_, sql_eq .ame tables dl_table (col_sql_eq hmt) rfl
    (where_sql_ame_eq hmt), ?_⟩
  exact substr_join (by simp) hwsub

/-- C5 witness: the amended claim evaluated at a concrete mydb target
with no ellipse columns against a catalog table. -/
theorem C5_witness :
    ∃ w, AllMatchesEllipse.where_sql
        [⟨"mydb://t1", ["ra", "dec"], "mydb", "ra", "dec", "",
            none, none, none, none⟩]
        (some ⟨"cat", ["id"], "tap", "ra", "dec", "",
            none, none, none, none⟩) = .ok w ∧
      Substr w (XMatchTable.alias
        ⟨"mydb://t1", ["ra", "dec"], "mydb", "ra", "dec", "",
            none, none, none, none⟩ ++ ".None") ∧
      ∃ s, SearchType.sql .ame
          [⟨"mydb://t1", ["ra", "dec"], "mydb", "ra", "dec", "",
              none, none, none, none⟩]
          (some ⟨"cat", ["id"], "tap", "ra", "dec", "",
              none, none, none, none⟩) = .ok s ∧
        Substr s (XMatchTable.alias
          ⟨"mydb://t1", ["ra", "dec"], "mydb", "ra", "dec", "",
              none, none, none, none⟩ ++ ".None") :=
  C5_amended_ellipse_missing_axis _ _ _ _ rfl (List.mem_cons_self _ _) rfl

theorem joinFrag_substrs (st : NearestNeighbor) (t mt : XMatchTable) :
    (st.exclude_non_matches = true →
      Substr (st.joinFrag t mt) "INNER JOIN LATERAL (") ∧
    (st.exclude_non_matches = false →
      Substr (st.joinFrag t mt) "LEFT JOIN LATERAL (") ∧
    Substr (st.joinFrag t mt) (mt.name ++ " AS ") ∧
    Substr (st.joinFrag t mt) "WHERE q3c_join(" ∧
    Substr (st.joinFrag t mt) (st.searchDegStr t) ∧
    Substr (st.joinFrag t mt) "ORDER BY" ∧
    Substr (st.joinFrag t mt) "q3c_dist(" ∧
    Substr (st.joinFrag t mt) "ASC LIMIT 1" := by
  refine ⟨?_, ?_, ?_, ?_, ?_, ?_, ?_, ?_⟩
  · intro h
    simp only [NearestNeighbor.joinFrag, h, if_true]
    have hc : Substr ("INNER JOIN" ++ " LATERAL (") "INNER JOIN LATERAL (" := by
      decide
    exact substr_join (by simp) hc
  · intro h
    simp only [NearestNeighbor.joinFrag, h, if_false]
    have hc : Substr ("LEFT JOIN" ++ " LATERAL (") "LEFT JOIN LATERAL (" := by
      decide
    exact substr_join (by simp) hc
  · simp only [NearestNeighbor.joinFrag]
    have hc : Substr (mt.name ++ " AS " ++ (mt.alias ++ "_sub_" ++ t.alias))
        (mt.name ++ " AS ") := substr_appL _ (substr_refl _)
    exact substr_join (by simp) hc
  · simp only [NearestNeighbor.joinFrag]
    have hc : Substr "\n                    WHERE q3c_join(" "WHERE q3c_join(" := by
      decide
    exact substr_join (by simp) hc
  · simp only [NearestNeighbor.joinFrag]
    exact substr_join (by simp) (substr_refl _)
  · simp only [NearestNeighbor.joinFrag]
    have hc : Substr "\n                    ORDER BY" "ORDER BY" := by decide
    exact substr_join (by simp) hc
  · simp only [NearestNeighbor.joinFrag]
    have hc : Substr "\n                        q3c_dist(" "q3c_dist(" := by
      decide
    exact substr_join (by simp) hc
  · simp only [NearestNeighbor.joinFrag]
    have hc : Substr "\n                    ASC LIMIT 1" "ASC LIMIT 1" := by
      decide
    exact substr_join (by simp) hc

/-- C2: for every `NearestNeighbor` configuration, every non-empty
target list and any (optional) primary table, `join_sql` emits exactly
one fragment per target table; each fragment is a lateral sub-select
against the primary (or, without a primary, the last) table (`<name> AS
…`), restricted by `WHERE q3c_join(…)` to rows within the configured
search radius (`searchDegStr`), ordered by `q3c_dist` ascending and
limited to one row (`ASC LIMIT 1`); the join is an `INNER JOIN LATERAL`
when `exclude_non_matches` is true and a `LEFT JOIN LATERAL` (outer
join) when it is false; and the strategy's WHERE clause is exactly the
tautology `1=1`. -/
theorem C2_nearest_neighbor_join_shape (st : NearestNeighbor)
    (tables : List XMatchTable) (dl_table : Option XMatchTable)
    (h : tables ≠ []) :
    SearchType.where_sql (.nn st) tables dl_table = .ok "1=1" ∧
    ∃ mt frags,
      lastTable tables dl_table = .ok mt ∧
      st.joinFrags tables dl_table = .ok frags ∧
      frags.length = (targetsOf tables dl_table).length ∧
      ∀ f ∈ frags,
        (st.exclude_non_matches = true → Substr f "INNER JOIN LATERAL (") ∧
        (st.exclude_non_matches = false → Substr f "LEFT JOIN LATERAL (") ∧
        Substr f (mt.name ++ " AS ") ∧
        Substr f "WHERE q3c_join(" ∧
        (∃ t ∈ targetsOf tables dl_table, Substr f (st.searchDegStr t)) ∧
        Substr f "ORDER BY" ∧
        Substr f "q3c_dist(" ∧
        Substr f "ASC LIMIT 1" := by
  obtain ⟨mt, hmt⟩ : ∃ mt, lastTable tables dl_table = .ok mt := by
    cases hdl : dl_table with
    | some d => exact ⟨d, rfl⟩
    | none =>
        obtain ⟨x, hx⟩ :=
          Option.isSome_iff_exists.mp (List.getLast?_isSome.mpr h)
        exact ⟨x, by simp [lastTable, hx]⟩
  refine ⟨rfl, mt,
    (targetsOf tables dl_table).map (fun table => st.joinFrag table mt),
    hmt, ?_, List.length_map _ _, ?_⟩
  · simp only [NearestNeighbor.joinFrags, hmt]
    rfl
  · intro f hf
    obtain ⟨t, ht, rfl⟩ := List.mem_map.mp hf
    obtain ⟨h1, h2, h3, h4, h5, h6, h7, h8⟩ := joinFrag_substrs st t mt
    exact ⟨h1, h2, h3, h4, ⟨t, ht, h5⟩, h6, h7, h8⟩

/-- C2 witness: the theorem evaluated at a concrete configuration and a
one-table target list (WHERE clause part shown). -/
theorem C2_witness :
    SearchType.where_sql
      (.nn ⟨5, true, none⟩)
      [⟨"mydb://t1", ["all"], "mydb", "ra", "dec", "",
          none, none, none, none⟩] none = .ok "1=1" :=
  (C2_nearest_neighbor_join_shape ⟨5, true, none⟩
    [⟨"mydb://t1", ["all"], "mydb", "ra", "dec", "",
        none, none, none, none⟩] none (by decide)).1

set_option maxRecDepth 40000 in
/-- C1: the end-to-end `AllMatches(radius=2.0 arcsec)` scenario with two
mydb target tables `mydb://t1` (columns `["ra","dec","mag"]`, alias
`mydb__t1`) and `mydb://t2` (columns `["all"]`, alias `mydb__t2`) and a
managed-catalog primary table `cat` (columns `["id","flux"]`): the
radius is stored converted to `2/3600` degrees; the column list selects
`t1`'s columns aliased `mydb__t1_<col>` (including `mydb__t1_mag`),
`mydb__t2.*`, `cat`'s columns under their bare names, and ends with the
two distance columns `mydb__t1_dist_arcsec` and `mydb__t2_dist_arcsec`;
and the WHERE clause is the `\nAND\n`-conjunction of exactly two
`q3c_join` predicates, each using the converted radius. -/
theorem C1_all_matches_end_to_end (t1 t2 cat : XMatchTable)
    (h1 : XMatchTable.make "mydb://t1" (some ["ra", "dec", "mag"])
        "ra" "dec" "" none none none none = .ok t1)
    (h2 : XMatchTable.make "mydb://t2" (some ["all"])
        "ra" "dec" "" none none none none = .ok t2)
    (h3 : XMatchTable.make "cat" (some ["id", "flux"])
        "ra" "dec" "" none none none none = .ok cat) :
    (AllMatches.make 2 false).radius = 2 / 3600 ∧
    (∃ d1 d2,
      Q3CSearchBase.q3cDistFrags [t1, t2] (some cat) = .ok [d1, d2] ∧
      Substr d1 "as mydb__t1_dist_arcsec" ∧
      Substr d2 "as mydb__t2_dist_arcsec" ∧
      Q3CSearchBase.colFrags [t1, t2] (some cat) =
        .ok (["mydb__t1.ra as mydb__t1_ra", "mydb__t1.dec as mydb__t1_dec",
              "mydb__t1.mag as mydb__t1_mag", "mydb__t2.*", "cat.id as id",
              "cat.flux as flux"] ++
             [String.intercalate ",\n" [d1, d2]])) ∧
    (∃ w1 w2,
      (AllMatches.make 2 false).whereFrags [t1, t2] (some cat) =
        .ok [w1, w2] ∧
      Substr w1 "q3c_join(" ∧ Substr w2 "q3c_join(" ∧
      Substr w1 (pyFloatStr (2 / 3600)) ∧
      Substr w2 (pyFloatStr (2 / 3600)) ∧
      SearchType.where_sql (.am (AllMatches.make 2 false)) [t1, t2]
          (some cat) =
        .ok (String.intercalate "\nAND\n" [w1, w2])) := by
  injection h1 with h1
  injection h2 with h2
  injection h3 with h3
  subst h1 h2 h3
  refine ⟨rfl, ⟨_, _, rfl, by decide, by decide, rfl⟩,
    ⟨_, _, rfl, ?_, ?_, ?_, ?_, rfl⟩⟩
  · simp only [AllMatches.whereFrag]
    have hc : Substr "q3c_join(" "q3c_join(" := substr_refl _
    exact substr_join (by simp) hc
  · simp only [AllMatches.whereFrag]
    have hc : Substr "q3c_join(" "q3c_join(" := substr_refl _
    exact substr_join (by simp) hc
  · simp only [AllMatches.whereFrag]
    have hc : Substr
        (AllMatches.searchDegStr (AllMatches.make 2 false)
          ⟨"mydb://t1", ["ra", "dec", "mag"], TableTypes.MYDB, "ra", "dec", "",
            none, none, none, none⟩)
        (pyFloatStr (2 / 3600)) := by
      show Substr (pyFloatStr (2 / 3600)) (pyFloatStr (2 / 3600))
      exact substr_refl _
    exact substr_join (by simp) hc
  · simp only [AllMatches.whereFrag]
    have hc : Substr
        (AllMatches.searchDegStr (AllMatches.make 2 false)
          ⟨"mydb://t2", ["all"], TableTypes.MYDB, "ra", "dec", "",
            none, none, none, none⟩)
        (pyFloatStr (2 / 3600)) := by
      show Substr (pyFloatStr (2 / 3600)) (pyFloatStr (2 / 3600))
      exact substr_refl _
    exact substr_join (by simp) hc

/-- C1 witness: the constructor hypotheses hold of the concrete table
records, and the scenario's radius conversion is as claimed. -/
theorem C1_witness :
    XMatchTable.make "mydb://t1" (some ["ra", "dec", "mag"])
        "ra" "dec" "" none none none none =
      .ok ⟨"mydb://t1", ["ra", "dec", "mag"], "mydb", "ra", "dec", "",
        none, none, none, none⟩ ∧
    (AllMatches.make 2 false).radius = 2 / 3600 :=
  ⟨rfl,
    (C1_all_matches_end_to_end
      ⟨"mydb://t1", ["ra", "dec", "mag"], "mydb", "ra", "dec", "",
        none, none, none, none⟩
      ⟨"mydb://t2", ["all"], "mydb", "ra", "dec", "",
        none, none, none, none⟩
      ⟨"cat", ["id", "flux"], "tap", "ra", "dec", "",
        none, none, none, none⟩
      rfl rfl rfl).1⟩

end DataLab
